import Mathlib

/-!
Shallow embedding of `src/practice/python-snippet/core_traps.py`, a single
Python script of ten demonstration routines plus a `main` runner.

Python list objects are modelled by a small heap of int-list objects, so that
aliasing, in-place mutation and object identity are faithful.  Printing is
modelled by returning the list of lines a routine writes; `print(a, b, c)`
joins the rendered arguments with single spaces.
-/

/-- Address of a heap-allocated Python `list` object. -/
abbrev Addr := Nat

/-- A heap of int-list objects; an object's address is its index in `data`. -/
structure Heap where
  data : List (List Int)
deriving DecidableEq

def Heap.empty : Heap := ⟨[]⟩

/-- Allocate a new list object, returning its (fresh) address. -/
def Heap.alloc (h : Heap) (v : List Int) : Addr × Heap :=
  (h.data.length, ⟨h.data ++ [v]⟩)

/-- Read the list stored at address `a`. -/
def Heap.read (h : Heap) (a : Addr) : List Int :=
  h.data.getD a []

/-- Overwrite the list stored at address `a`. -/
def Heap.write (h : Heap) (a : Addr) (v : List Int) : Heap :=
  ⟨h.data.set a v⟩

/-- Number of allocated objects. -/
def Heap.size (h : Heap) : Nat := h.data.length

/-- `print(a, b, ...)` joins its rendered arguments with single spaces. -/
def pyPrint (args : List String) : String := String.intercalate " " args

/-- Python `repr` of a list of ints: `[1, 2, 3]`. -/
def pyReprListInt (xs : List Int) : String :=
  "[" ++ String.intercalate ", " (xs.map toString) ++ "]"

/-- Python `repr` of a list of lists of ints: `[[1, 2], [3, 4]]`. -/
def pyReprListListInt (xss : List (List Int)) : String :=
  "[" ++ String.intercalate ", " (xss.map pyReprListInt) ++ "]"

/-- Python `repr` of a list of nats. -/
def pyReprListNat (xs : List Nat) : String :=
  "[" ++ String.intercalate ", " (xs.map toString) ++ "]"

/-- Python `str` of a bool: `True` / `False`. -/
def pyBool (b : Bool) : String := if b then "True" else "False"

/-! ### 1) Mutable default argument trap -/

/-- `add_item_bad(item, bucket=[])`: the default list is a single object
created once, when the function is defined; the call appends to it in place
and returns that same object.  The default's address is `defaultAddr`. -/
def add_item_bad (item : Int) (defaultAddr : Addr) (h : Heap) : Addr × Heap :=
  (defaultAddr, h.write defaultAddr (h.read defaultAddr ++ [item]))

/-- `add_item_good(item, bucket=None)`: when `bucket is None` a fresh list is
allocated; either way `item` is appended in place and the bucket returned. -/
def add_item_good (item : Int) (bucket : Option Addr) (h : Heap) : Addr × Heap :=
  match bucket with
  | none =>
      let (a, h1) := h.alloc []
      (a, h1.write a (h1.read a ++ [item]))
  | some a => (a, h.write a (h.read a ++ [item]))

/-- Addresses and printed values of the six calls in `demo_mutable_default_arg`. -/
structure Demo1Run where
  badAddrs : List Addr
  badVals : List (List Int)
  goodAddrs : List Addr
  goodVals : List (List Int)
deriving DecidableEq

/-- The calls of `demo_mutable_default_arg`, starting from a fresh module state
(the shared default bucket of `add_item_bad` is allocated empty, once).  Each
printed value is the returned object read right after its call. -/
def demo1_run : Demo1Run :=
  let (dAddr, h1) := Heap.empty.alloc []
  let (r1, h2) := add_item_bad 1 dAddr h1
  let (r2, h3) := add_item_bad 2 dAddr h2
  let (r3, h4) := add_item_bad 3 dAddr h3
  let (g1, h5) := add_item_good 1 none h4
  let (g2, h6) := add_item_good 2 none h5
  let (g3, h7) := add_item_good 3 none h6
  { badAddrs := [r1, r2, r3]
    badVals := [h2.read r1, h3.read r2, h4.read r3]
    goodAddrs := [g1, g2, g3]
    goodVals := [h5.read g1, h6.read g2, h7.read g3] }

/-- Lines printed by `demo_mutable_default_arg`. -/
def demo_mutable_default_arg : List String :=
  let r := demo1_run
  [ "\n--- 1) Mutable Default Argument Trap ---"
  , "Bad calls (notice the list keeps growing):"
  , pyPrint ["add_item_bad(1):", pyReprListInt (r.badVals.getD 0 [])]
  , pyPrint ["add_item_bad(2):", pyReprListInt (r.badVals.getD 1 [])]
  , pyPrint ["add_item_bad(3):", pyReprListInt (r.badVals.getD 2 [])]
  , "\nGood calls (each call is independent by default):"
  , pyPrint ["add_item_good(1):", pyReprListInt (r.goodVals.getD 0 [])]
  , pyPrint ["add_item_good(2):", pyReprListInt (r.goodVals.getD 1 [])]
  , pyPrint ["add_item_good(3):", pyReprListInt (r.goodVals.getD 2 [])] ]

/-! ### 2) `is` vs `==` -/

/-- The two outcomes the source flags as implementation-defined: whether the
separately written int literals `256` and `10_000` are interned, so that
`x is y` (resp. `m is n`) is true.  Everything else the script prints is
independent of this choice. -/
structure Impl where
  xIsY : Bool
  mIsN : Bool
deriving DecidableEq

/-- Lines printed by `demo_is_vs_equals`.  The lists `a` and `b` are two
distinct heap objects with equal contents; `val = None`, so `val is None`
is true. -/
def demo_is_vs_equals (p : Impl) : List String :=
  let (a, h1) := Heap.empty.alloc [1, 2, 3]
  let (b, h2) := h1.alloc [1, 2, 3]
  [ "\n--- 2) `is` vs `==` ---"
  , pyPrint ["a == b:", pyBool (h2.read a == h2.read b)]
  , pyPrint ["a is b:", pyBool (a == b)]
  , "\nSmall int example (may be interned):"
  , pyPrint ["x == y:", pyBool ((256 : Int) == 256)]
  , pyPrint ["x is y:", pyBool p.xIsY]
  , "\nLarger int example (interning not guaranteed):"
  , pyPrint ["m == n:", pyBool ((10000 : Int) == 10000)]
  , pyPrint ["m is n:", pyBool p.mIsN]
  , "\nCorrect identity check with None:"
  , pyPrint ["val is None:", pyBool true] ]

/-! ### 3) Shallow copy vs deep copy -/

/-- State of `demo_shallow_vs_deep_copy` after the mutation
`original[0].append(99)`: the outer address lists `original`, `shallow`
(`copy.copy`: new outer list, same inner objects) and `deep`
(`copy.deepcopy`: fresh inner objects), and the final heap. -/
def demo3_run : List Addr × List Addr × List Addr × Heap :=
  let (a0, h1) := Heap.empty.alloc [1, 2]
  let (a1, h2) := h1.alloc [3, 4]
  let original := [a0, a1]
  let shallow := original
  let (b0, h3) := h2.alloc (h2.read a0)
  let (b1, h4) := h3.alloc (h3.read a1)
  let deep := [b0, b1]
  let h5 := h4.write a0 (h4.read a0 ++ [99])
  (original, shallow, deep, h5)

/-- Lines printed by `demo_shallow_vs_deep_copy`. -/
def demo_shallow_vs_deep_copy : List String :=
  let (original, shallow, deep, h) := demo3_run
  [ "\n--- 3) Shallow Copy vs Deep Copy ---"
  , pyPrint ["original:", pyReprListListInt (original.map h.read)]
  , pyPrint ["shallow :", pyReprListListInt (shallow.map h.read),
      "  <-- changed too (shared inner lists)"]
  , pyPrint ["deep    :", pyReprListListInt (deep.map h.read),
      "  <-- unchanged (separate inner lists)"] ]

/-! ### 4) List aliasing -/

/-- State of `demo_list_aliasing`: the flat list `a` after `a[0] = 7`, and the
rows (as values) of `grid_bad` and `grid_good` after the `[0][0] = 9` writes.
`[[0] * 3] * 3` allocates one inner list and repeats its address; the
comprehension `[[0] * 3 for _ in range(3)]` allocates a fresh inner list per
iteration. -/
def demo4_run : List Int × List (List Int) × List (List Int) :=
  let a := (List.replicate 3 (0 : Int)).set 0 7
  let (inner, h1) := Heap.empty.alloc (List.replicate 3 0)
  let grid_bad : List Addr := List.replicate 3 inner
  let h2 := h1.write (grid_bad.getD 0 0) ((h1.read (grid_bad.getD 0 0)).set 0 9)
  let (grid_good, h3) := (List.range 3).foldl
    (fun (acc : List Addr × Heap) _ =>
      let (r, h') := acc.2.alloc (List.replicate 3 0)
      (acc.1 ++ [r], h'))
    ([], h2)
  let h4 := h3.write (grid_good.getD 0 0) ((h3.read (grid_good.getD 0 0)).set 0 9)
  (a, grid_bad.map h2.read, grid_good.map h4.read)

/-- Lines printed by `demo_list_aliasing`. -/
def demo_list_aliasing : List String :=
  let (a, badRows, goodRows) := demo4_run
  [ "\n--- 4) List Aliasing Trap ---"
  , pyPrint ["a = [0] * 3 then a[0]=7 ->", pyReprListInt a, "(this is fine)"]
  , "\nBad grid (rows are same object):"
  , pyPrint ["grid_bad:", pyReprListListInt badRows]
  , "\nGood grid (independent rows):"
  , pyPrint ["grid_good:", pyReprListListInt goodRows] ]

/-! ### 5) Broad exception catching -/

/-- Kinds of Python exceptions relevant here.  All inherit from `Exception`. -/
inductive PyExc
  | valueError
  | typeError
  | otherError
deriving DecidableEq

def isPyDigit (c : Char) : Bool := '0' ≤ c && c ≤ '9'

def pyDigitVal (c : Char) : Nat := c.toNat - '0'.toNat

/-- Digits of an int literal after the sign: at least one digit; single
underscores are allowed between digits but not leading, trailing or doubled. -/
def digitsAux (acc : Nat) : List Char → Option Nat
  | [] => some acc
  | '_' :: c :: rest =>
      if isPyDigit c then digitsAux (acc * 10 + pyDigitVal c) rest else none
  | ['_'] => none
  | c :: rest =>
      if isPyDigit c then digitsAux (acc * 10 + pyDigitVal c) rest else none

def digitRun : List Char → Option Nat
  | c :: rest => if isPyDigit c then digitsAux (pyDigitVal c) rest else none
  | [] => none

def isPySpace (c : Char) : Bool :=
  c == ' ' || c == '\t' || c == '\n' || c == '\r' || c == '\x0b' || c == '\x0c'

/-- CPython `int(s)` for a `str` argument `s`: strip surrounding whitespace,
allow one optional sign, then a base-10 digit run; on any malformed input it
raises `ValueError` (for a `str` argument no other exception can arise). -/
def pyInt (s : String) : Except PyExc Int :=
  let cs := ((s.data.dropWhile isPySpace).reverse.dropWhile isPySpace).reverse
  let signed : Option Int :=
    match cs with
    | '+' :: rest => (digitRun rest).map Int.ofNat
    | '-' :: rest => (digitRun rest).map (fun n => -(n : Int))
    | rest => (digitRun rest).map Int.ofNat
  match signed with
  | some n => .ok n
  | none => .error .valueError

/-- `parse_int_bad`: `except Exception` catches every exception and yields 0. -/
def parse_int_bad (s : String) : Int :=
  match pyInt s with
  | .ok n => n
  | .error _ => 0

/-- `parse_int_good`: `except ValueError` catches only `ValueError`; any other
exception would propagate (modelled by the `Except` result). -/
def parse_int_good (s : String) : Except PyExc Int :=
  match pyInt s with
  | .ok n => .ok n
  | .error .valueError => .ok 0
  | .error e => .error e

/-- Render an int result for printing; the demo only prints calls that return. -/
def pyShowIntResult : Except PyExc Int → String
  | .ok n => toString n
  | .error _ => "Traceback"

/-- Lines printed by `demo_broad_exception`. -/
def demo_broad_exception : List String :=
  [ "\n--- 5) Catching Exceptions Too Broadly ---"
  , pyPrint ["parse_int_bad('123') :", toString (parse_int_bad "123")]
  , pyPrint ["parse_int_bad('abc') :", toString (parse_int_bad "abc")]
  , pyPrint ["parse_int_good('123'):", pyShowIntResult (parse_int_good "123")]
  , pyPrint ["parse_int_good('abc'):", pyShowIntResult (parse_int_good "abc")] ]

/-! ### 6) Late binding in closures -/

/-- A closure over the loop variable: `lambda: i` captures the variable itself
(read when called); `lambda i=i: i` captures the current value as a default. -/
inductive Closure
  | byRef (var : String)
  | byVal (v : Nat)
deriving DecidableEq

/-- Call a closure in an environment giving each variable's current value. -/
def callClosure (env : String → Nat) : Closure → Nat
  | .byRef v => env v
  | .byVal n => n

/-- `demo_late_binding_closure`: both loops run over `range(3)`; after they
finish the shared variable `i` holds its final value.  Returns the printed
lists `[f() for f in funcs_bad]` and `[f() for f in funcs_good]`. -/
def demo6_run : List Nat × List Nat :=
  let funcs_bad := (List.range 3).foldl (fun acc _ => acc ++ [Closure.byRef "i"]) []
  let funcs_good := (List.range 3).foldl (fun acc i => acc ++ [Closure.byVal i]) []
  let iFinal := (List.range 3).getLastD 0
  let env : String → Nat := fun v => if v == "i" then iFinal else 0
  (funcs_bad.map (callClosure env), funcs_good.map (callClosure env))

/-- Lines printed by `demo_late_binding_closure`. -/
def demo_late_binding_closure : List String :=
  let (bad, good) := demo6_run
  [ "\n--- 6) Late Binding in Closures (lambda in loops) ---"
  , "Bad closures (all return the same final i):"
  , pyReprListNat bad
  , "Good closures (capture each i correctly):"
  , pyReprListNat good ]

/-! ### 7) Mutating a dict while iterating -/

/-- Insertion-ordered dict of string keys to ints (Python 3.7+ order). -/
abbrev PyDict := List (String × Int)

def dictGet (d : PyDict) (k : String) : Int :=
  ((d.find? (fun kv => kv.1 == k)).map Prod.snd).getD 0

def dictDel (d : PyDict) (k : String) : PyDict :=
  d.filter (fun kv => kv.1 != k)

/-- Python `repr` of a dict: keys in single quotes, entries in braces. -/
def pyReprDict (d : PyDict) : String :=
  "\x7b" ++
    String.intercalate ", " (d.map (fun kv => "'" ++ kv.1 ++ "': " ++ toString kv.2))
    ++ "\x7d"

/-- The safe deletion loop of `demo_mutating_dict_while_iterating`: iterate
over a snapshot `list(d.keys())`, deleting the keys with odd values. -/
def demo7_run : PyDict × PyDict :=
  let d : PyDict := [("a", 1), ("b", 2), ("c", 3)]
  let final := (d.map Prod.fst).foldl
    (fun dd k => if dictGet dd k % 2 == 1 then dictDel dd k else dd) d
  (d, final)

/-- Lines printed by `demo_mutating_dict_while_iterating`. -/
def demo_mutating_dict_while_iterating : List String :=
  let (d0, d1) := demo7_run
  [ "\n--- 7) Mutating dict while iterating ---"
  , pyPrint ["Original dict:", pyReprDict d0]
  , "Safe approach: iterate over a list of keys to delete."
  , pyPrint ["After deletion:", pyReprDict d1] ]

/-! ### 8) Float precision -/

/-- Exact value of the IEEE-754 binary64 double nearest to 0.1. -/
def float01 : ℚ := 3602879701896397 / 2 ^ 55

/-- Exact value of the IEEE-754 binary64 double nearest to 0.2. -/
def float02 : ℚ := 3602879701896397 / 2 ^ 54

/-- Exact value of the IEEE-754 binary64 double nearest to 0.3. -/
def float03 : ℚ := 5404319552844595 / 2 ^ 54

/-- The binary64 sum `0.1 + 0.2`: the exact sum `10808639105689191 / 2 ^ 55`
needs 54 mantissa bits; rounding to nearest, ties to even, gives
`5404319552844596 / 2 ^ 54`. -/
def floatSum : ℚ := 5404319552844596 / 2 ^ 54

/-- CPython `repr` of the double `floatSum` (shortest decimal round-trip). -/
def floatSumRepr : String := "0.30000000000000004"

/-- CPython `repr` of `round(0.1 + 0.2, 2)`: the nearest-double of the
2-decimal rounding of `floatSum` is the `0.3` double, printed `0.3`. -/
def roundSumRepr : String := "0.3"

/-- Lines printed by `demo_float_precision`. -/
def demo_float_precision : List String :=
  [ "\n--- 8) Float Precision ---"
  , pyPrint ["0.1 + 0.2 =", floatSumRepr]
  , pyPrint ["0.1 + 0.2 == 0.3 ?", pyBool (decide (floatSum = float03))]
  , pyPrint ["Round to 2 decimals:", roundSumRepr] ]

/-! ### 9) dataclass mutable default -/

/-- A dataclass field's declared default, as the `@dataclass` decorator
inspects it. -/
inductive FieldDefault
  | mutableList (v : List Int)
  | noneDefault
deriving DecidableEq

/-- The check `@dataclass` runs per field: a class-level default that is a
`list` (or `dict`/`set`) instance raises
`ValueError("mutable default <class 'list'> for field ... is not allowed")`. -/
def dataclassFieldOk : FieldDefault → Except PyExc Unit
  | .mutableList _ => .error .valueError
  | .noneDefault => .ok ()

def dataclassCheck (fields : List FieldDefault) : Except PyExc Unit :=
  fields.foldlM (fun _ f => dataclassFieldOk f) ()

/-- `class BasketBad: items: List[int] = []`. -/
def basketBadFields : List FieldDefault := [.mutableList []]

/-- `class BasketGood: items: List[int] = None`. -/
def basketGoodFields : List FieldDefault := [.noneDefault]

/-- `demo_dataclass_mutable_default` under the semantics its own comments
describe (a shared class-level default list for `BasketBad`; a fresh list per
instance from `BasketGood.__post_init__`): the printed values of `b1.items`,
`b2.items`, `g1.items`, `g2.items` after `b1.items.append(1)` and
`g1.items.append(1)`. -/
def demo9_run : List Int × List Int × List Int × List Int :=
  let (dAddr, h1) := Heap.empty.alloc []
  let b1 := dAddr
  let b2 := dAddr
  let h2 := h1.write b1 (h1.read b1 ++ [1])
  let (g1, h3) := h2.alloc []
  let (g2, h4) := h3.alloc []
  let h5 := h4.write g1 (h4.read g1 ++ [1])
  (h5.read b1, h5.read b2, h5.read g1, h5.read g2)

/-- Lines `demo_dataclass_mutable_default` would print. -/
def demo_dataclass_mutable_default : List String :=
  let (b1, b2, g1, g2) := demo9_run
  [ "\n--- 9) dataclass Mutable Default Trap ---"
  , pyPrint ["BasketBad b1.items:", pyReprListInt b1]
  , pyPrint ["BasketBad b2.items:", pyReprListInt b2, "  <-- oops, shared list!"]
  , pyPrint ["\nBasketGood g1.items:", pyReprListInt g1]
  , pyPrint ["BasketGood g2.items:", pyReprListInt g2, "  <-- separate lists ✅"] ]

/-! ### 10) Argument mutation -/

/-- `append_in_place(nums)`: appends 999 to the caller's list object. -/
def append_in_place (nums : Addr) (h : Heap) : Heap :=
  h.write nums (h.read nums ++ [999])

/-- `demo_argument_mutation`: the caller's `data` after `append_in_place`,
plus the non-mutating `data2 + [999]` variant. -/
def demo10_run : List Int × List Int × List Int :=
  let (data, h1) := Heap.empty.alloc [1, 2, 3]
  let h2 := append_in_place data h1
  let data2 : List Int := [1, 2, 3]
  let new_data2 := data2 ++ [999]
  (h2.read data, data2, new_data2)

/-- Lines printed by `demo_argument_mutation`. -/
def demo_argument_mutation : List String :=
  let (data, data2, new_data2) := demo10_run
  [ "\n--- 10) Mutating Arguments In-Place ---"
  , pyPrint ["After append_in_place:", pyReprListInt data, "  <-- caller data changed"]
  , pyPrint ["Original:", pyReprListInt data2]
  , pyPrint ["New     :", pyReprListInt new_data2] ]

/-! ### Main runner and module-level execution -/

/-- The ten demonstration routines. -/
inductive DemoId
  | mutableDefaultArg
  | isVsEquals
  | shallowVsDeepCopy
  | listAliasing
  | broadException
  | lateBindingClosure
  | mutatingDictWhileIterating
  | floatPrecision
  | dataclassMutableDefault
  | argumentMutation
deriving DecidableEq

/-- The lines each routine prints. -/
def demoLines (p : Impl) : DemoId → List String
  | .mutableDefaultArg => demo_mutable_default_arg
  | .isVsEquals => demo_is_vs_equals p
  | .shallowVsDeepCopy => demo_shallow_vs_deep_copy
  | .listAliasing => demo_list_aliasing
  | .broadException => demo_broad_exception
  | .lateBindingClosure => demo_late_binding_closure
  | .mutatingDictWhileIterating => demo_mutating_dict_while_iterating
  | .floatPrecision => demo_float_precision
  | .dataclassMutableDefault => demo_dataclass_mutable_default
  | .argumentMutation => demo_argument_mutation

/-- The body of `main()`: the calls it makes, in source order. -/
def mainCallOrder : List DemoId :=
  [ .mutableDefaultArg
  , .isVsEquals
  , .shallowVsDeepCopy
  , .listAliasing
  , .broadException
  , .lateBindingClosure
  , .mutatingDictWhileIterating
  , .floatPrecision
  , .dataclassMutableDefault
  , .argumentMutation ]

/-- The transcript `main()` would write were module initialization to succeed
(the program as written never reaches it; see `moduleInit`). -/
def mainOutput (p : Impl) : List String :=
  (mainCallOrder.map (demoLines p)).flatten

/-- Module-level execution: the imports, `def` statements and the two decorated
class statements run in order; the first statement that can raise is
`@dataclass` applied to `BasketBad` (its field `items` has the class-level
default `[]`), then `@dataclass` applied to `BasketGood`. -/
def moduleInit : Except PyExc Unit := do
  dataclassCheck basketBadFields
  dataclassCheck basketGoodFields

/-- `python core_traps.py` with no arguments: if module initialization raises,
the traceback goes to stderr, nothing is written to stdout and the interpreter
exits with status 1; otherwise `main()` runs and the process exits 0.
Returns (stdout lines, exit status). -/
def programRun (p : Impl) : List String × Nat :=
  match moduleInit with
  | .ok _ => (mainOutput p, 0)
  | .error _ => ([], 1)

/-- The lines whose content the source flags as implementation-defined
(small-int identity in `demo_is_vs_equals`). -/
def isImplDefinedLine (s : String) : Bool :=
  "x is y:".data.isPrefixOf s.data || "m is n:".data.isPrefixOf s.data

/-- Mask the implementation-defined lines of a transcript. -/
def scrubImplDefined (lines : List String) : List String :=
  lines.map (fun s => if isImplDefinedLine s then "<implementation-defined>" else s)

/-! ### Heap lemmas -/

theorem Heap.read_write_self (h : Heap) (a : Addr) (v : List Int) (ha : a < h.size) :
    (h.write a v).read a = v := by
  simp [Heap.read, Heap.write, Heap.size] at *
  simp [List.getD_eq_getElem?_getD, List.getElem?_set, ha]

theorem Heap.size_write (h : Heap) (a : Addr) (v : List Int) :
    (h.write a v).size = h.size := by
  simp [Heap.write, Heap.size]

theorem Heap.read_alloc_addr (h : Heap) (v : List Int) :
    (h.alloc v).2.read (h.alloc v).1 = v := by
  simp [Heap.alloc, Heap.read, List.getD_eq_getElem?_getD, List.getElem?_append_right]

theorem Heap.alloc_addr (h : Heap) (v : List Int) : (h.alloc v).1 = h.size := rfl

theorem Heap.size_alloc (h : Heap) (v : List Int) : (h.alloc v).2.size = h.size + 1 := by
  simp [Heap.alloc, Heap.size]

theorem Heap.size_alloc_lt (h : Heap) (v : List Int) : h.size < (h.alloc v).2.size := by
  simp [Heap.alloc, Heap.size]

/-! ### Claims -/

/-- C1: the claim "invoked with no arguments, the program runs to completion
without any uncaught exception and exits with status zero" fails on the code:
module-level execution reaches `@dataclass class BasketBad`, whose field
`items` carries the class-level default `[]`, and the decorator raises
`ValueError` there; the interpreter writes no line to stdout and exits with
status 1, never reaching `main`. -/
theorem c1_program_aborts_at_import :
    moduleInit = Except.error PyExc.valueError ∧ ∀ p : Impl, programRun p = ([], 1) :=
  ⟨rfl, fun _ => rfl⟩

/-- C2: the output is deterministic: for any two resolutions of the
implementation-defined small-int identity outcomes, the transcripts `main`
would print agree after masking exactly the lines the source flags as
implementation-defined (`x is y`, `m is n` in `demo_is_vs_equals`), and the
stdout the program actually produces is identical across runs. -/
theorem c2_output_deterministic :
    ∀ p q : Impl,
      scrubImplDefined (mainOutput p) = scrubImplDefined (mainOutput q) ∧
      (programRun p).1 = (programRun q).1 := by
  rintro ⟨a, b⟩ ⟨c, d⟩
  cases a <;> cases b <;> cases c <;> cases d <;> exact ⟨rfl, rfl⟩

/-- C3: the body of `main` is exactly these ten calls, each routine called
exactly once, in this order. -/
theorem c3_main_call_order :
    mainCallOrder = [DemoId.mutableDefaultArg, DemoId.isVsEquals,
      DemoId.shallowVsDeepCopy, DemoId.listAliasing, DemoId.broadException,
      DemoId.lateBindingClosure, DemoId.mutatingDictWhileIterating,
      DemoId.floatPrecision, DemoId.dataclassMutableDefault,
      DemoId.argumentMutation] ∧
    mainCallOrder.length = 10 ∧ mainCallOrder.Nodup := by
  refine ⟨rfl, rfl, ?_⟩
  decide

/-- C4: from a fresh program state, `add_item_bad` returns the one shared
default object (address 0 all three times) with values `[1]`, `[1, 2]`,
`[1, 2, 3]`, while `add_item_good` with the bucket omitted returns three
distinct fresh objects (addresses 1, 2, 3) with values `[1]`, `[2]`, `[3]`. -/
theorem c4_mutable_default_calls :
    demo1_run = ⟨[0, 0, 0], [[1], [1, 2], [1, 2, 3]], [1, 2, 3], [[1], [2], [3]]⟩ :=
  rfl

/-- C5: `parse_int_good` returns the converted integer whenever `int(s)`
succeeds and returns 0 whenever `int(s)` fails (for a `str` argument the
failure is a `ValueError`); the concrete pairs `"123" ↦ 123` and `"abc" ↦ 0`
hold for both `parse_int_good` and `parse_int_bad`. -/
theorem c5_parse_int_values :
    (∀ s n, pyInt s = Except.ok n → parse_int_good s = Except.ok n) ∧
    (∀ s, pyInt s = Except.error PyExc.valueError → parse_int_good s = Except.ok 0) ∧
    parse_int_good "123" = Except.ok 123 ∧ parse_int_good "abc" = Except.ok 0 ∧
    parse_int_bad "123" = 123 ∧ parse_int_bad "abc" = 0 := by
  refine ⟨?_, ?_, rfl, rfl, rfl, rfl⟩
  · intro s n hs
    simp [parse_int_good, hs]
  · intro s hs
    simp [parse_int_good, hs]

/-- Witness for C5 at concrete inputs: `int("42")` succeeds with 42 and
`int("zz")` raises `ValueError`, so the two branches of the theorem apply. -/
theorem c5_parse_int_values_witness :
    pyInt "42" = Except.ok 42 ∧ parse_int_good "42" = Except.ok 42 ∧
    pyInt "zz" = Except.error PyExc.valueError ∧ parse_int_good "zz" = Except.ok 0 :=
  ⟨rfl, c5_parse_int_values.1 "42" 42 rfl, rfl, c5_parse_int_values.2.1 "zz" rfl⟩

/-- C6: after `grid_bad = [[0] * 3] * 3` and `grid_bad[0][0] = 9` all three
rows read `[9, 0, 0]` (one shared inner object), while after
`grid_good = [[0] * 3 for _ in range(3)]` and `grid_good[0][0] = 9` only the
first row is `[9, 0, 0]` and the other two stay `[0, 0, 0]`. -/
theorem c6_grid_aliasing :
    demo4_run.2.1 = [[9, 0, 0], [9, 0, 0], [9, 0, 0]] ∧
    demo4_run.2.2 = [[9, 0, 0], [0, 0, 0], [0, 0, 0]] :=
  ⟨rfl, rfl⟩

/-- C7: after `original[0].append(99)` the deep copy still reads
`[[1, 2], [3, 4]]`, the shallow copy's first element reads `[1, 2, 99]`, and
the shallow copy holds the very addresses of `original`'s inner objects. -/
theorem c7_shallow_vs_deep :
    demo3_run.2.2.1.map demo3_run.2.2.2.read = [[1, 2], [3, 4]] ∧
    demo3_run.2.2.2.read (demo3_run.2.1.getD 0 0) = [1, 2, 99] ∧
    demo3_run.2.1 = demo3_run.1 :=
  ⟨rfl, rfl, rfl⟩

/-- C8: called after the loops finish, the `funcs_bad` closures all return the
final loop value 2, `[2, 2, 2]`, while the `funcs_good` closures, whose
default argument bound `i` at creation, return `[0, 1, 2]`. -/
theorem c8_late_binding : demo6_run = ([2, 2, 2], [0, 1, 2]) := rfl

/-- C9: whenever `int(s)` succeeds or fails with `ValueError`,
`parse_int_bad` and `parse_int_good` return the same value (in the model a
`str` argument admits no other exception, so they agree on every string). -/
theorem c9_bad_good_agree (s : String)
    (hs : (∃ n, pyInt s = Except.ok n) ∨ pyInt s = Except.error PyExc.valueError) :
    parse_int_good s = Except.ok (parse_int_bad s) := by
  cases hx : pyInt s with
  | ok n => simp [parse_int_good, parse_int_bad, hx]
  | error e =>
      rw [hx] at hs
      rcases hs with ⟨n, hn⟩ | hv
      · exact absurd hn (by simp)
      · injection hv with he
        subst he
        simp [parse_int_good, parse_int_bad, hx]

/-- Witness for C9 at `s = "abc"`, where `int` fails with `ValueError`. -/
theorem c9_bad_good_agree_witness :
    pyInt "abc" = Except.error PyExc.valueError ∧
    parse_int_good "abc" = Except.ok (parse_int_bad "abc") :=
  ⟨rfl, c9_bad_good_agree "abc" (Or.inr rfl)⟩

/-- C10: calling `add_item_good` with an explicit allocated bucket returns
that very object with `item` appended in place (and allocates nothing), so
the caller's list is mutated; with the bucket omitted (`None`) it allocates a
fresh object, whose value after the call is `[item]`. -/
theorem c10_add_item_good_explicit_bucket (h : Heap) (a : Addr) (item : Int)
    (ha : a < h.size) :
    (add_item_good item (some a) h).1 = a ∧
    (add_item_good item (some a) h).2.read a = h.read a ++ [item] ∧
    (add_item_good item (some a) h).2.size = h.size ∧
    (add_item_good item none h).1 = h.size ∧
    (add_item_good item none h).2.size = h.size + 1 ∧
    (add_item_good item none h).2.read (add_item_good item none h).1 = [item] := by
  refine ⟨rfl, ?_, ?_, rfl, ?_, ?_⟩
  · exact Heap.read_write_self h a _ ha
  · exact Heap.size_write h a _
  · show ((h.alloc []).2.write (h.alloc []).1 _).size = h.size + 1
    rw [Heap.size_write, Heap.size_alloc]
  · show ((h.alloc []).2.write (h.alloc []).1 ((h.alloc []).2.read (h.alloc []).1 ++ [item])).read (h.alloc []).1 = [item]
    rw [Heap.read_alloc_addr, Heap.read_write_self]
    · rfl
    · rw [Heap.alloc_addr]
      exact Heap.size_alloc_lt h []

/-- Witness for C10 on a one-object heap holding `[5]` at address 0. -/
theorem c10_add_item_good_explicit_bucket_witness :
    (0 : Addr) < Heap.size ⟨[[5]]⟩ ∧
    (add_item_good 7 (some 0) ⟨[[5]]⟩).1 = 0 ∧
    (add_item_good 7 (some 0) ⟨[[5]]⟩).2.read 0 = Heap.read ⟨[[5]]⟩ 0 ++ [7] :=
  ⟨by decide, (c10_add_item_good_explicit_bucket ⟨[[5]]⟩ 0 7 (by decide)).1,
    (c10_add_item_good_explicit_bucket ⟨[[5]]⟩ 0 7 (by decide)).2.1⟩
